import Mathlib

/-!
Verification development for the air-quality dashboard (src/app.py).

The script loads two CSV datasets (indoor, outdoor), parses their timestamp
column with pandas to_datetime using errors=coerce (malformed cells become
the missing value NaT), offers sidebar filters (date range, hour range,
numeric parameter, optional cooking flag), filters the rows, and renders
download button, summary statistics, an alert, charts and a correlation
heatmap.

Shallow embedding choices:
  - A calendar date is represented by its day ordinal (a Nat); pandas
    compares dates by this total order.
  - A parsed timestamp is a pair of day ordinal and hour (0..23); a cell
    that failed to parse is `none` (pandas NaT).  In pandas every ordering
    comparison against NaT (and against the NaN that dt.hour yields on
    NaT) evaluates to False, which the row mask below mirrors.
  - Numeric sensor readings are modelled by Int (only ordering and
    equality of readings matter to the program).
  - pandas to_datetime with errors=coerce is modelled by an executable
    parser over a concrete timestamp format "day:hour"; the program only
    relies on the split between cells that parse and cells that coerce to
    the missing value.
  - Streamlit render calls are modelled as a list of render actions, each
    action carrying the data the corresponding call receives.
-/

/-- A successfully parsed timestamp: day ordinal of the calendar date and
hour of day, as produced by dt.date and dt.hour. -/
structure Timestamp where
  date : Nat
  hour : Nat
deriving DecidableEq, Repr

/-- One row of a dataset after the cleaning step of load_data: the
timestamp column holds either a parsed timestamp or the missing value NaT
(`none`), and the remaining numeric columns are an association list from
column name to value (the Cooking column, when present, lives here). -/
structure Row where
  ts : Option Timestamp
  vals : List (String × Int)
deriving DecidableEq, Repr

/-- One row of a raw CSV file before cleaning: the timestamp column is the
raw string cell. -/
structure RawRow where
  ts_raw : String
  vals : List (String × Int)
deriving DecidableEq, Repr

/-- Value of a digit character. -/
def digitVal (c : Char) : Option Nat :=
  if c.isDigit then some (c.toNat - 48) else none

/-- Accumulating decimal reader over a list of characters; fails on any
non-digit character. -/
def readNatAux : List Char → Nat → Option Nat
  | [], acc => some acc
  | c :: cs, acc =>
    match digitVal c with
    | some d => readNatAux cs (acc * 10 + d)
    | none => none

/-- Reads a nonempty all-digit character list as a Nat. -/
def readNat : List Char → Option Nat
  | [] => none
  | c :: cs => readNatAux (c :: cs) 0

/-- Splits a character list at the first colon; fails when no colon
occurs. -/
def splitOnColon : List Char → Option (List Char × List Char)
  | [] => none
  | c :: rest =>
    if c = ':' then some ([], rest)
    else
      match splitOnColon rest with
      | some (a, b) => some (c :: a, b)
      | none => none

/-- Models pd.to_datetime(cell, errors=coerce) on one timestamp cell: a
well-formed cell "day:hour" (day ordinal, hour 0..23) parses to a
Timestamp, every malformed cell is coerced to the missing value `none`
(pandas NaT).  The program depends only on which cells parse and which
coerce, not on the concrete calendar format. -/
def to_datetime_coerce (s : String) : Option Timestamp :=
  match splitOnColon s.toList with
  | some (d, h) =>
    match readNat d, readNat h with
    | some dn, some hn => if hn < 24 then some ⟨dn, hn⟩ else none
    | _, _ => none
  | none => none

/-- The cleaning step of load_data applied to one row: the timestamp cell
is replaced by its parse result (missing value on failure); the row itself
is kept either way, as the column assignment
`indoor[Datetime] = pd.to_datetime(indoor[Datetime], errors=coerce)`
rewrites a column in place and never drops rows. -/
def clean_row (r : RawRow) : Row :=
  { ts := to_datetime_coerce r.ts_raw, vals := r.vals }

/-- The cleaning step of load_data applied to a whole dataset. -/
def load_clean (rows : List RawRow) : List Row :=
  rows.map clean_row

/-- Local file system state seen by load_data: for each of the two CSV
files, whether it exists and its current contents. -/
structure FS where
  indoorExists : Bool
  indoorContent : List RawRow
  outdoorExists : Bool
  outdoorContent : List RawRow
deriving DecidableEq, Repr

/-- The two remote files behind the Google Drive ids. -/
structure Remote where
  indoor : List RawRow
  outdoor : List RawRow
deriving DecidableEq, Repr

/-- Which downloads load_data attempted. -/
structure DownloadLog where
  indoorDownloaded : Bool
  outdoorDownloaded : Bool
deriving DecidableEq, Repr

/-- The download phase of load_data, lines 17-20 of app.py: each of the two
files is downloaded exactly when it does not exist locally; a download
writes the remote contents to the local file. -/
def fetch_files (fs : FS) (rm : Remote) : FS × DownloadLog :=
  let fs1 :=
    if !fs.indoorExists then
      { fs with indoorExists := true, indoorContent := rm.indoor }
    else fs
  let fs2 :=
    if !fs1.outdoorExists then
      { fs1 with outdoorExists := true, outdoorContent := rm.outdoor }
    else fs1
  (fs2, ⟨!fs.indoorExists, !fs.outdoorExists⟩)

/-- load_data: download whichever of the two files is absent, read both
local files, and clean the timestamp column of each.  Returns the two
datasets together with the resulting file system and the download log. -/
def load_data (fs : FS) (rm : Remote) :
    (List Row × List Row) × FS × DownloadLog :=
  let (fs2, log) := fetch_files fs rm
  ((load_clean fs2.indoorContent, load_clean fs2.outdoorContent), fs2, log)

/-- The row mask of filter_data, lines 75-80 of app.py:
date within [date_range.0, date_range.1] (both ends inclusive) and hour
within [hour_range.0, hour_range.1] (both ends inclusive).  A row whose
timestamp is the missing value NaT fails every one of the four pandas
comparisons, hence the mask is False on it. -/
def date_hour_mask (d0 d1 h0 h1 : Nat) (r : Row) : Bool :=
  match r.ts with
  | none => false
  | some t =>
    decide (d0 ≤ t.date) && decide (t.date ≤ d1) &&
    decide (h0 ≤ t.hour) && decide (t.hour ≤ h1)

/-- filter_data, lines 74-85 of app.py.  date_range is the value of the
date-input widget, a sequence that holds fewer than two elements while the
user has picked only one endpoint; the subscripts date_range[0] and
date_range[1] are modelled by the fallible lookups, so the function
returns `none` exactly when an out-of-bounds access would be raised.
After the date/hour mask, when the cooking filter is on, only rows whose
Cooking value equals 1 are kept. -/
def filter_data (df : List Row) (date_range : List Nat)
    (hour_range : Nat × Nat) (cooking_filter : Bool) : Option (List Row) :=
  match date_range[0]?, date_range[1]? with
  | some d0, some d1 =>
    let filtered := df.filter (date_hour_mask d0 d1 hour_range.1 hour_range.2)
    some (if cooking_filter then
            filtered.filter (fun r => decide (r.vals.lookup "Cooking" = some 1))
          else filtered)
  | _, _ => none

/-- pandas dtype of a column, as select_dtypes distinguishes them. -/
inductive Dtype
  | num
  | obj
  | datetime
deriving DecidableEq, Repr

/-- A column of a dataset: its (stripped) name and its dtype. -/
structure Col where
  name : String
  dtype : Dtype
deriving DecidableEq, Repr

/-- str.lower() of Python on one character: an ASCII upper-case letter is
shifted to its lower-case form (the column names involved are ASCII). -/
def char_lower (c : Char) : Char :=
  if 65 ≤ c.toNat ∧ c.toNat ≤ 90 then Char.ofNat (c.toNat + 32) else c

/-- str.lower() of Python on a column name. -/
def str_lower (s : String) : String :=
  ⟨s.data.map char_lower⟩

/-- df.select_dtypes(include=number).columns: the numeric columns, in
order. -/
def select_dtypes_number (cols : List Col) : List Col :=
  cols.filter (fun c => c.dtype = Dtype.num)

/-- The parameter options of create_sidebar_filters, lines 56-57 of
app.py: the names of the numeric columns whose lowercased name is not
entry_id. -/
def sidebar_numeric_cols (cols : List Col) : List String :=
  ((select_dtypes_number cols).map Col.name).filter
    (fun n => decide ¬ (str_lower n = "entry_id"))

/-- A dataset together with its column schema, as create_visualizations
receives it. -/
structure DataFrame where
  cols : List Col
  rows : List Row
deriving DecidableEq, Repr

/-- df[c] for a numeric column c: the values of that column down the
rows. -/
def df_column (df : DataFrame) (c : String) : List Int :=
  df.rows.filterMap (fun r => r.vals.lookup c)

/-- Series.max(): maximum of the values, none on an empty series. -/
def series_max : List Int → Option Int
  | [] => none
  | x :: xs =>
    match series_max xs with
    | none => some x
    | some m => some (max x m)

/-- The guard of the high-PM2.5 alert, line 106 of app.py:
column.lower() == pm2.5 and df[column].max() > 100. -/
def pm_alert (column : String) (vals : List Int) : Bool :=
  (str_lower column = "pm2.5") &&
    (match series_max vals with
     | some m => decide (100 < m)
     | none => false)

/-- The data handed to the correlation heatmap: every numeric column of
the (filtered) dataset with its values, as numeric_df.corr() receives
them. -/
def corr_input (df : DataFrame) : List (String × List Int) :=
  (select_dtypes_number df.cols).map (fun c => (c.name, df_column df c.name))

/-- One Streamlit render call of create_visualizations, carrying the data
the call receives. -/
inductive RenderAction
  | warning (msg : String)
  | downloadButton (data : DataFrame)
  | summaryStats (vals : List Int)
  | errorAlert (msg : String)
  | subheader (title : String)
  | lineChart (data : DataFrame) (x y : String)
  | corrHeatmap (data : List (String × List Int))
  | info (msg : String)
deriving DecidableEq, Repr

/-- create_visualizations, lines 87-131 of app.py, as the sequence of
render calls it makes.  An empty dataset yields only the warning; a
nonempty one yields the download button, the summary statistics of the
selected column, the PM2.5 alert when its guard holds, the time-series
line chart over the dataset, and either the correlation heatmap over the
numeric columns (when there are more than one) or an informational
notice. -/
def create_visualizations (df : DataFrame) (column time_col : String) :
    List RenderAction :=
  if df.rows.isEmpty then
    [.warning "No data available for the selected filters."]
  else
    [.downloadButton df] ++
    [.summaryStats (df_column df column)] ++
    (if pm_alert column (df_column df column) then
       [.errorAlert "High PM2.5 Alert: Levels exceeded 100"]
     else []) ++
    [.subheader "Time Series", .lineChart df time_col column] ++
    [.subheader "Correlation Matrix"] ++
    (if 1 < (select_dtypes_number df.cols).length then
       [.corrHeatmap (corr_input df)]
     else [.info "Not enough numeric columns for correlation matrix"])

example : str_lower "PM2.5" = "pm2.5" := by decide

/-- Unfolding of filter_data once both subscripts are in bounds. -/
theorem filter_data_eq_of_getElem (df : List Row) (dr : List Nat)
    (hr : Nat × Nat) (cf : Bool) (d0 d1 : Nat)
    (h0 : dr[0]? = some d0) (h1 : dr[1]? = some d1) :
    filter_data df dr hr cf =
      some (if cf then
              (df.filter (date_hour_mask d0 d1 hr.1 hr.2)).filter
                (fun r => decide (r.vals.lookup "Cooking" = some 1))
            else df.filter (date_hour_mask d0 d1 hr.1 hr.2)) := by
  unfold filter_data
  rw [h0, h1]

/-- C1: for every input row carrying a parsed timestamp and every filter
selection, filter_data keeps the row iff its calendar date lies within the
selected date range (both bounds inclusive), its hour lies within the
selected hour range (both bounds inclusive), and, when the cooking filter
is on, its Cooking value equals 1; with the cooking filter off the Cooking
value is unconstrained. -/
theorem filter_data_keeps_iff (df : List Row) (dr : List Nat)
    (h0 h1 : Nat) (cf : Bool) (d0 d1 : Nat)
    (hd0 : dr[0]? = some d0) (hd1 : dr[1]? = some d1)
    (out : List Row) (hout : filter_data df dr (h0, h1) cf = some out)
    (r : Row) (t : Timestamp) (ht : r.ts = some t) :
    r ∈ out ↔
      r ∈ df ∧ (d0 ≤ t.date ∧ t.date ≤ d1) ∧ (h0 ≤ t.hour ∧ t.hour ≤ h1) ∧
        (cf = true → r.vals.lookup "Cooking" = some 1) := by
  rw [filter_data_eq_of_getElem df dr (h0, h1) cf d0 d1 hd0 hd1,
    Option.some.injEq] at hout
  subst hout
  cases cf with
  | false =>
    simp [List.mem_filter, date_hour_mask, ht, and_assoc]
  | true =>
    simp [List.mem_filter, date_hour_mask, ht, and_assoc]
    tauto

/-- Witness for C1 at a concrete dataset and selection. -/
theorem filter_data_keeps_iff_witness :
    (⟨some ⟨3, 10⟩, [("Cooking", 1)]⟩ : Row) ∈
        [(⟨some ⟨3, 10⟩, [("Cooking", 1)]⟩ : Row)] ↔
      (⟨some ⟨3, 10⟩, [("Cooking", 1)]⟩ : Row) ∈
          [(⟨some ⟨3, 10⟩, [("Cooking", 1)]⟩ : Row), ⟨none, []⟩] ∧
        (0 ≤ 3 ∧ 3 ≤ 5) ∧ (0 ≤ 10 ∧ 10 ≤ 23) ∧
        (true = true →
          ([("Cooking", (1 : Int))] : List (String × Int)).lookup "Cooking"
            = some 1) :=
  filter_data_keeps_iff
    [⟨some ⟨3, 10⟩, [("Cooking", 1)]⟩, ⟨none, []⟩] [0, 5] 0 23 true 0 5
    rfl rfl [⟨some ⟨3, 10⟩, [("Cooking", 1)]⟩] (by decide)
    ⟨some ⟨3, 10⟩, [("Cooking", 1)]⟩ ⟨3, 10⟩ rfl

/-- C2: a row whose timestamp cell fails to parse is coerced to the
missing value by the cleaning step of load_data, and no row carrying the
missing timestamp ever appears in the output of filter_data, for any date
range, hour range and cooking flag. -/
theorem coerced_timestamp_excluded (rr : RawRow)
    (hparse : to_datetime_coerce rr.ts_raw = none)
    (df : List Row) (dr : List Nat) (hr : Nat × Nat) (cf : Bool)
    (out : List Row) (hout : filter_data df dr hr cf = some out) :
    (clean_row rr).ts = none ∧ ∀ r ∈ out, r.ts ≠ none := by
  constructor
  · simp [clean_row, hparse]
  · intro r hr' hnone
    match hdr : dr[0]?, hdr' : dr[1]? with
    | some d0, some d1 =>
      rw [filter_data_eq_of_getElem df dr hr cf d0 d1 hdr hdr',
        Option.some.injEq] at hout
      subst hout
      cases cf with
      | false =>
        rcases List.mem_filter.mp hr' with ⟨-, hmask⟩
        simp [date_hour_mask, hnone] at hmask
      | true =>
        rcases List.mem_filter.mp hr' with ⟨hr'', -⟩
        rcases List.mem_filter.mp hr'' with ⟨-, hmask⟩
        simp [date_hour_mask, hnone] at hmask
    | some _, none => simp [filter_data, hdr, hdr'] at hout
    | none, _ => simp [filter_data, hdr] at hout

/-- Witness for C2 at a concrete malformed cell and selection. -/
theorem coerced_timestamp_excluded_witness :
    (clean_row ⟨"garbage", []⟩).ts = none ∧
      ∀ r ∈ [(⟨some ⟨3, 10⟩, []⟩ : Row)], r.ts ≠ none :=
  coerced_timestamp_excluded ⟨"garbage", []⟩ (by decide)
    [⟨some ⟨3, 10⟩, []⟩, ⟨none, []⟩] [0, 5] (0, 23) false
    [⟨some ⟨3, 10⟩, []⟩] (by decide)

/-- C8: whenever filter_data returns a dataset, that dataset is a
subsequence of the input: every output row occurs unmodified in the input,
no row is duplicated, and the relative order of rows is preserved. -/
theorem filter_data_sublist (df : List Row) (dr : List Nat)
    (hr : Nat × Nat) (cf : Bool) (out : List Row)
    (hout : filter_data df dr hr cf = some out) :
    List.Sublist out df := by
  match hdr : dr[0]?, hdr' : dr[1]? with
  | some d0, some d1 =>
    rw [filter_data_eq_of_getElem df dr hr cf d0 d1 hdr hdr',
      Option.some.injEq] at hout
    subst hout
    cases cf with
    | false => exact List.filter_sublist df
    | true =>
      exact List.Sublist.trans (List.filter_sublist _) (List.filter_sublist df)
  | some _, none => simp [filter_data, hdr, hdr'] at hout
  | none, _ => simp [filter_data, hdr] at hout

/-- Witness for C8 at a concrete dataset and selection. -/
theorem filter_data_sublist_witness :
    List.Sublist [(⟨some ⟨3, 10⟩, []⟩ : Row)]
      [⟨some ⟨3, 10⟩, []⟩, ⟨none, []⟩] :=
  filter_data_sublist [⟨some ⟨3, 10⟩, []⟩, ⟨none, []⟩] [0, 5] (0, 23) false
    [⟨some ⟨3, 10⟩, []⟩] (by decide)

/-- C10: filter_data succeeds exactly when the date range holds at least
two elements; with fewer (as the date-input widget yields while only one
endpoint is picked) the subscript date_range[1] (or date_range[0]) is out
of bounds and no filtered dataset is returned. -/
theorem filter_data_needs_two_dates (df : List Row) (dr : List Nat)
    (hr : Nat × Nat) (cf : Bool) :
    (filter_data df dr hr cf).isSome = true ↔ 2 ≤ dr.length := by
  match dr with
  | [] => simp [filter_data]
  | [d] => simp [filter_data]
  | d0 :: d1 :: rest =>
    rw [filter_data_eq_of_getElem df (d0 :: d1 :: rest) hr cf d0 d1
      (by simp) (by simp)]
    simp

/-- A local file system whose indoor file already exists and holds one row
with a timestamp cell that does not parse. -/
def fs_with_bad_row : FS :=
  ⟨true, [⟨"garbage", [("PM2.5", 42)]⟩], true, []⟩

/-- C4 fails on the code: load_data does not drop a row whose timestamp
does not parse.  On a file holding one such row, the returned indoor
dataset still holds that row, its timestamp now the missing value, so in
particular not every returned row has a successfully parsed timestamp. -/
theorem load_retains_unparsed_row :
    (load_data fs_with_bad_row ⟨[], []⟩).1.1 = [⟨none, [("PM2.5", 42)]⟩] ∧
      ¬ (∀ r ∈ (load_data fs_with_bad_row ⟨[], []⟩).1.1, r.ts ≠ none) := by
  decide

/-- C4 amended: load_data drops no row.  Each returned dataset has exactly
one row per row of the corresponding local file (after the download
phase), and each input row reappears with its timestamp cell replaced by
its parse result — the missing value when that cell does not parse. -/
theorem load_clean_preserves_rows (fs : FS) (rm : Remote) :
    ((load_data fs rm).1.1.length
        = (fetch_files fs rm).1.indoorContent.length ∧
      (load_data fs rm).1.2.length
        = (fetch_files fs rm).1.outdoorContent.length) ∧
    (∀ rr ∈ (fetch_files fs rm).1.indoorContent,
      (⟨to_datetime_coerce rr.ts_raw, rr.vals⟩ : Row)
        ∈ (load_data fs rm).1.1) ∧
    (∀ rr ∈ (fetch_files fs rm).1.outdoorContent,
      (⟨to_datetime_coerce rr.ts_raw, rr.vals⟩ : Row)
        ∈ (load_data fs rm).1.2) := by
  refine ⟨⟨?_, ?_⟩, ?_, ?_⟩
  · simp [load_data, load_clean]
  · simp [load_data, load_clean]
  · intro rr hrr
    exact List.mem_map.mpr ⟨rr, hrr, rfl⟩
  · intro rr hrr
    exact List.mem_map.mpr ⟨rr, hrr, rfl⟩

/-- Witness for the amended C4 at a concrete file: the malformed row is
retained with the missing timestamp. -/
theorem load_clean_preserves_rows_witness :
    (load_data fs_with_bad_row ⟨[], []⟩).1.1.length = 1 ∧
      (⟨to_datetime_coerce "garbage", [("PM2.5", 42)]⟩ : Row)
        ∈ (load_data fs_with_bad_row ⟨[], []⟩).1.1 :=
  ⟨((load_clean_preserves_rows fs_with_bad_row ⟨[], []⟩).1.1).trans (by decide),
   (load_clean_preserves_rows fs_with_bad_row ⟨[], []⟩).2.1
     ⟨"garbage", [("PM2.5", 42)]⟩ (by decide)⟩

/-- C5: each of the two files is downloaded exactly when it is absent
locally; a file that already exists is not downloaded again and its
contents enter load_data unchanged. -/
theorem download_iff_absent (fs : FS) (rm : Remote) :
    ((load_data fs rm).2.2.indoorDownloaded = !fs.indoorExists) ∧
    ((load_data fs rm).2.2.outdoorDownloaded = !fs.outdoorExists) ∧
    ((load_data fs rm).2.1.indoorContent
        = if fs.indoorExists then fs.indoorContent else rm.indoor) ∧
    ((load_data fs rm).2.1.outdoorContent
        = if fs.outdoorExists then fs.outdoorContent else rm.outdoor) ∧
    ((load_data fs rm).1.1
        = load_clean
            (if fs.indoorExists then fs.indoorContent else rm.indoor)) ∧
    ((load_data fs rm).1.2
        = load_clean
            (if fs.outdoorExists then fs.outdoorContent else rm.outdoor)) := by
  obtain ⟨ie, ic, oe, oc⟩ := fs
  cases ie <;> cases oe <;> simp [load_data, fetch_files]

/-- C6: a name is offered as a sidebar parameter option iff it names a
numeric column of the dataset and its lowercased form is not entry_id;
in particular non-numeric columns are never offered. -/
theorem sidebar_options_iff (cols : List Col) (n : String) :
    n ∈ sidebar_numeric_cols cols ↔
      (∃ c ∈ cols, c.name = n ∧ c.dtype = Dtype.num) ∧
        ¬ (str_lower n = "entry_id") := by
  simp [sidebar_numeric_cols, select_dtypes_number, List.mem_filter,
    List.mem_map]
  tauto
example : sidebar_numeric_cols
    [⟨"Entry_ID", .num⟩, ⟨"PM2.5", .num⟩, ⟨"note", .obj⟩] = ["PM2.5"] := by
  decide
example : pm_alert "PM2.5" [50, 150] = true := by decide
example : pm_alert "PM2.5" [50, 90] = false := by decide
example : to_datetime_coerce "12:7" = some ⟨12, 7⟩ := by decide
example : to_datetime_coerce "garbage" = none := by decide
example : to_datetime_coerce "12:99" = none := by decide
example :
    filter_data [⟨some ⟨3, 10⟩, [("Cooking", 1)]⟩, ⟨none, []⟩]
      [0, 5] (0, 23) true = some [⟨some ⟨3, 10⟩, [("Cooking", 1)]⟩] := by decide
example : filter_data [⟨some ⟨3, 10⟩, []⟩] [4] (0, 23) false = none := by decide

/-- C3: when the filtered dataset is empty, create_visualizations renders
exactly the warning notice and nothing else: no download button, no
summary statistics, no alert and no charts. -/
theorem empty_df_warning_only (df : DataFrame) (column time_col : String)
    (h : df.rows = []) :
    create_visualizations df column time_col
      = [.warning "No data available for the selected filters."] := by
  simp [create_visualizations, h]

/-- Witness for C3 at a concrete empty filtered dataset. -/
theorem empty_df_warning_only_witness :
    create_visualizations ⟨[⟨"PM2.5", .num⟩], []⟩ "PM2.5" "Datetime"
      = [.warning "No data available for the selected filters."] :=
  empty_df_warning_only ⟨[⟨"PM2.5", .num⟩], []⟩ "PM2.5" "Datetime" rfl

/-- The guard of the alert holds iff the column lowercases to pm2.5 and
the maximum of its values strictly exceeds 100. -/
theorem pm_alert_eq_true (c : String) (vals : List Int) :
    pm_alert c vals = true ↔
      str_lower c = "pm2.5" ∧ ∃ m, series_max vals = some m ∧ 100 < m := by
  unfold pm_alert
  cases hm : series_max vals <;> simp [hm]

/-- C7: on a nonempty filtered dataset, create_visualizations hands the
filtered rows to the download button and the line chart, computes the
summary statistics on the selected column of the filtered rows, and
renders the correlation heatmap, computed over the numeric columns of the
filtered rows, exactly when there are at least two numeric columns;
otherwise it renders the informational notice and no heatmap. -/
theorem visualizations_nonempty_render (df : DataFrame)
    (column time_col : String) (h : df.rows.isEmpty = false) :
    RenderAction.downloadButton df
        ∈ create_visualizations df column time_col ∧
    RenderAction.summaryStats (df_column df column)
        ∈ create_visualizations df column time_col ∧
    RenderAction.lineChart df time_col column
        ∈ create_visualizations df column time_col ∧
    (1 < (select_dtypes_number df.cols).length →
      RenderAction.corrHeatmap (corr_input df)
        ∈ create_visualizations df column time_col) ∧
    (¬ 1 < (select_dtypes_number df.cols).length →
      (∀ d, RenderAction.corrHeatmap d
          ∉ create_visualizations df column time_col) ∧
      RenderAction.info "Not enough numeric columns for correlation matrix"
        ∈ create_visualizations df column time_col) := by
  refine ⟨?_, ?_, ?_, ?_, ?_⟩
  · simp [create_visualizations, h]
  · simp [create_visualizations, h]
  · simp [create_visualizations, h]
  · intro hlen
    simp [create_visualizations, h, hlen]
  · intro hlen
    constructor
    · intro d
      simp only [create_visualizations, h, Bool.false_eq_true, if_false,
        hlen, List.append_assoc, List.mem_append, List.cons_append,
        List.nil_append, List.mem_cons, List.not_mem_nil]
      split <;> simp
    · simp [create_visualizations, h, hlen]

/-- A concrete filtered dataset with two numeric columns and one row whose
PM2.5 reading exceeds 100. -/
def df_two_numeric : DataFrame :=
  ⟨[⟨"PM2.5", .num⟩, ⟨"Cooking", .num⟩],
   [⟨some ⟨1, 2⟩, [("PM2.5", 150), ("Cooking", 1)]⟩]⟩

/-- Witness for C7 at a concrete nonempty dataset with two numeric
columns. -/
theorem visualizations_nonempty_render_witness :
    RenderAction.summaryStats (df_column df_two_numeric "PM2.5")
        ∈ create_visualizations df_two_numeric "PM2.5" "Datetime" ∧
    RenderAction.corrHeatmap (corr_input df_two_numeric)
        ∈ create_visualizations df_two_numeric "PM2.5" "Datetime" :=
  ⟨(visualizations_nonempty_render df_two_numeric "PM2.5" "Datetime"
      rfl).2.1,
   (visualizations_nonempty_render df_two_numeric "PM2.5" "Datetime"
      rfl).2.2.2.1 (by decide)⟩

/-- C9: on a nonempty filtered dataset the high-PM2.5 alert is emitted iff
the selected column equals pm2.5 case-insensitively and the maximum of
that column over the filtered data strictly exceeds 100. -/
theorem pm_alert_emitted_iff (df : DataFrame) (column time_col : String)
    (h : df.rows.isEmpty = false) :
    RenderAction.errorAlert "High PM2.5 Alert: Levels exceeded 100"
        ∈ create_visualizations df column time_col ↔
      str_lower column = "pm2.5" ∧
        ∃ m, series_max (df_column df column) = some m ∧ 100 < m := by
  rw [← pm_alert_eq_true]
  cases hp : pm_alert column (df_column df column) <;>
    simp [create_visualizations, h, hp] <;>
    split <;> simp

/-- Witness for C9: at the concrete dataset the alert fires, and its guard
holds there. -/
theorem pm_alert_emitted_iff_witness :
    RenderAction.errorAlert "High PM2.5 Alert: Levels exceeded 100"
        ∈ create_visualizations df_two_numeric "PM2.5" "Datetime" :=
  (pm_alert_emitted_iff df_two_numeric "PM2.5" "Datetime" rfl).mpr
    (by decide)
